import Mathlib

/-!
Verification of the notion-mcp repository's capability catalogue and
request-dispatch layer against its specification.

The Python source is shallowly embedded: JSON-compatible runtime values
become the inductive `JsonValue`; the argument bag of a tool call becomes an
association list; the HTTP backend (the Notion REST API behind
`requests.Session`) becomes an explicit function from requests to responses,
so that every theorem can quantify over backend behaviour and observe the
exact sequence of requests a dispatch issues.
-/

set_option maxHeartbeats 1000000

/-- JSON-compatible Python runtime value (the payloads flowing through the
MCP layer: argument bags, request bodies, responses). Numbers are modelled
as integers; the embedded code fragments never compute with floats. -/
inductive JsonValue where
  | null
  | bool (b : Bool)
  | num (n : Int)
  | str (s : String)
  | arr (elems : List JsonValue)
  | obj (fields : List (String × JsonValue))

/-- Single-quote character, written via its code point. -/
def pyQuote : String := String.singleton (Char.ofNat 39)

/-- Python type name of a JSON value, as it appears in runtime error texts. -/
def pyTypeName : JsonValue → String
  | .null => "NoneType"
  | .bool _ => "bool"
  | .num _ => "int"
  | .str _ => "str"
  | .arr _ => "list"
  | .obj _ => "dict"

/-- Python truthiness of a JSON-compatible value: `None`, `False`, `0`, the
empty string, the empty list and the empty dict are falsy. -/
def pyTruthy : JsonValue → Bool
  | .null => false
  | .bool b => b
  | .num n => n != 0
  | .str s => s != ""
  | .arr [] => false
  | .arr (_ :: _) => true
  | .obj [] => false
  | .obj (_ :: _) => true

/-- Python `repr` of a JSON-compatible value (quoting of embedded quote
characters inside strings is not modelled; no embedded fragment produces
such a string). -/
def pyRepr : JsonValue → String
  | .null => "None"
  | .bool true => "True"
  | .bool false => "False"
  | .num n => toString n
  | .str s => pyQuote ++ s ++ pyQuote
  | .arr elems => "[" ++ String.intercalate ", "
      (elems.attach.map (fun e => pyRepr e.1)) ++ "]"
  | .obj fields => "\x7b" ++ String.intercalate ", "
      (fields.attach.map (fun kv => pyQuote ++ kv.1.1 ++ pyQuote ++ ": " ++ pyRepr kv.1.2)) ++ "\x7d"
decreasing_by
  · have h1 := List.sizeOf_lt_of_mem e.2
    simp only [JsonValue.arr.sizeOf_spec]
    omega
  · have h1 := List.sizeOf_lt_of_mem kv.2
    rcases kv with ⟨⟨k, v⟩, hkv⟩
    simp only [JsonValue.obj.sizeOf_spec, Prod.mk.sizeOf_spec] at h1 ⊢
    omega

/-- Python `str` of a JSON-compatible value, as used by f-string
interpolation: identical to `repr` except on strings. -/
def pyStr : JsonValue → String
  | .str s => s
  | v => pyRepr v

/-- The argument bag of a tool call: a string-keyed JSON object, keys
pairwise distinct (a Python dict). -/
abbrev ArgBag := List (String × JsonValue)

/-- Dict lookup, first match (keys of a Python dict are unique). -/
def pyLookup : List (String × JsonValue) → String → Option JsonValue
  | [], _ => none
  | (k, v) :: rest, key => if k = key then some v else pyLookup rest key

/-- Python `key in d` membership test. -/
def hasKey (args : ArgBag) (k : String) : Bool :=
  (pyLookup args k).isSome

/-- Python `d.get(key)`: `None` when the key is absent. A stored JSON `null`
is the Python value `None` as well, indistinguishable from an absent key, so
both map to `none`. -/
def pyGetOpt (args : ArgBag) (k : String) : Option JsonValue :=
  match pyLookup args k with
  | none => none
  | some .null => none
  | some v => some v

/-- Python exceptions raised by the embedded fragments. A pydantic
`ValidationError` carries the model name and one (location, message) pair
per failed field, in field declaration order. -/
inductive PyError where
  | notionAPIError (status_code : Int) (message : String)
  | keyError (key : String)
  | valueError (message : String)
  | jsonDecodeError
  | attributeError (message : String)
  | validationError (model : String) (errors : List (String × String))

/-- Python `str(e)` of each modelled exception. `NotionAPIError.__init__`
sets the exception text to `Notion API Error (status): message`; `str` of a
`KeyError` is the `repr` of the missing key. -/
def pyStrOfError : PyError → String
  | .notionAPIError status_code message =>
      "Notion API Error (" ++ toString status_code ++ "): " ++ message
  | .keyError key => pyQuote ++ key ++ pyQuote
  | .valueError message => message
  | .jsonDecodeError => "Expecting value: line 1 column 1 (char 0)"
  | .attributeError message => message
  | .validationError model errors =>
      toString errors.length ++ " validation error" ++
      (if errors.length == 1 then "" else "s") ++ " for " ++ model ++
      String.join (errors.map (fun fe => "\n" ++ fe.1 ++ "\n  " ++ fe.2))

/-- Python `d[key]` item access: the value, or a `KeyError`. -/
def getItem (args : ArgBag) (k : String) : Except PyError JsonValue :=
  match pyLookup args k with
  | some v => .ok v
  | none => .error (.keyError k)

/-- An HTTP response from the Notion API as observed through `requests`:
status code, the JSON-decoded body when the body is valid JSON, and the raw
body text. -/
structure HttpResponse where
  status_code : Int
  jsonBody : Option JsonValue
  text : String

/-- An HTTP request issued by `NotionClient._make_request`: method, path
(appended to the configured base URL), query parameters, and optional JSON
body. -/
structure BackendRequest where
  method : String
  path : String
  params : List (String × JsonValue)
  data : Option JsonValue

/-- A backend is a function from requests to responses; theorems quantify
over it to play the role of a stub or spy collaborator. -/
abbrev Backend := BackendRequest → HttpResponse

/-- Truthiness-guarded optional field of a request body: Python
`if v: data[key] = v` on a value obtained from `d.get`. -/
def optField (key : String) (v : Option JsonValue) : List (String × JsonValue) :=
  match v with
  | some x => if pyTruthy x then [(key, x)] else []
  | none => []

/-- None-excluding optional field of a request body: pydantic
`dict(exclude_none=True)` keeps every field that is not `None`. -/
def noneField (key : String) (v : Option JsonValue) : List (String × JsonValue) :=
  match v with
  | some x => [(key, x)]
  | none => []

/-- Body of `NotionClient.query_database`: each optional field is added
under a Python truthiness guard, in source order. -/
def query_database_data (filter sorts start_cursor page_size : Option JsonValue) :
    List (String × JsonValue) :=
  optField "filter" filter ++ optField "sorts" sorts ++
  optField "start_cursor" start_cursor ++ optField "page_size" page_size

/-- Body of `NotionClient.search`: `SearchParams.dict(exclude_none=True)`,
fields in declaration order. -/
def search_data (query sort filter start_cursor page_size : Option JsonValue) :
    List (String × JsonValue) :=
  noneField "query" query ++ noneField "sort" sort ++ noneField "filter" filter ++
  noneField "start_cursor" start_cursor ++ noneField "page_size" page_size

/-- Body of `NotionClient.update_database`: `title`, `properties`, `icon`
and `cover` are truthiness-guarded, `is_inline` is guarded by
`is not None`. -/
def update_database_data (title properties icon cover is_inline : Option JsonValue) :
    List (String × JsonValue) :=
  optField "title" title ++ optField "properties" properties ++
  optField "icon" icon ++ optField "cover" cover ++ noneField "is_inline" is_inline

/-- Semantics of `NotionClient._make_request` once the request is built: on
a non-ok response (`status_code >= 400`) raise `NotionAPIError` carrying the
status code and the `message` field of the JSON error body (falling back to
the body text, then to `Unknown error`); on an ok response return the
JSON-decoded body. -/
def run_request (backend : Backend) (req : BackendRequest) : Except PyError JsonValue :=
  let r := backend req
  if r.status_code < 400 then
    match r.jsonBody with
    | some j => .ok j
    | none => .error .jsonDecodeError
  else
    match r.jsonBody with
    | some (.obj fields) =>
        .error (.notionAPIError r.status_code
          (match pyLookup fields "message" with
           | some (.str s) => s
           | some v => pyStr v
           | none => "Unknown error"))
    | some other =>
        .error (.attributeError
          (pyQuote ++ pyTypeName other ++ pyQuote ++ " object has no attribute " ++ pyQuote ++ "get" ++ pyQuote))
    | none =>
        .error (.notionAPIError r.status_code
          (if r.text = "" then "Unknown error" else r.text))

/-- Shape of the value an arm of `call_tool` produces from the backend
response: either the raw response dict passed through unchanged, or a
pydantic domain model constructed from the response (`Page(**response)`,
`Block(**response)`, `Database(**response)`). The domain DTOs are out of
scope for the specification, so a model-returning arm is embedded as the
response tagged with the model it is parsed into. -/
inductive ResultShape where
  | rawDict
  | model (modelName : String)

/-- The `result` value of `call_tool` before serialization to text. -/
inductive ToolResult where
  | dictVal (v : JsonValue)
  | pydantic (modelName : String) (response : JsonValue)

/-- Outcome of one `call_tool` invocation: the success result, or the text
of the error response produced by the `except` branch. -/
inductive CallOutcome where
  | ok (result : ToolResult)
  | err (text : String)

/-- Text of the error response of `call_tool`:
`f"Error calling \x7bname\x7d: \x7bstr(e)\x7d"`. -/
def errorText (name : String) (e : PyError) : String :=
  "Error calling " ++ name ++ ": " ++ pyStrOfError e

/-- Python `int(s)` on a string: surrounding whitespace stripped, an
optional sign, then decimal digits (underscore separators and non-ASCII
digits, which Python also accepts, are not modelled; no embedded fragment
produces them). -/
def pyParseInt (s : String) : Option Int :=
  let t := s.trim
  if t.startsWith "+" then ((t.drop 1).toNat?).map Int.ofNat
  else if t.startsWith "-" then ((t.drop 1).toNat?).map (fun n => -(Int.ofNat n))
  else (t.toNat?).map Int.ofNat

/-- pydantic v1 validation of an `Optional[str]` field over the JSON
universe: `None` passes as `None`; a string passes; a number or boolean is
coerced with `str(...)` (a bool is an int in Python); a list or dict is
rejected (`str type expected`). -/
def pyStrField : Option JsonValue → Option (Option JsonValue)
  | none => some none
  | some .null => some none
  | some (.str s) => some (some (.str s))
  | some (.num n) => some (some (.str (toString n)))
  | some (.bool b) => some (some (.str (if b then "True" else "False")))
  | some _ => none

/-- pydantic v1 validation of an `Optional[int]` field: `None` passes; an
int passes; a bool is coerced with `int(...)` to 1 or 0; a string is parsed
with `int(...)`; a list or dict is rejected (`value is not a valid
integer`). -/
def pyIntField : Option JsonValue → Option (Option JsonValue)
  | none => some none
  | some .null => some none
  | some (.num n) => some (some (.num n))
  | some (.bool b) => some (some (.num (if b then 1 else 0)))
  | some (.str s) => (pyParseInt s).map (fun n => some (.num n))
  | some _ => none

/-- Whether a JSON value may be a Python dict key (lists and dicts are
unhashable, so `dict(...)` raises a `TypeError` on them). -/
def pyHashable : JsonValue → Bool
  | .arr _ => false
  | .obj _ => false
  | _ => true

/-- Key coercion of a pydantic `Dict[str, Any]` field: the `str` field
validator applied to each key, so string keys pass, numeric and boolean
keys are coerced with `str(...)`, and a `None` key fails. -/
def pyDictKeyString : JsonValue → Option String
  | .str s => some s
  | .num n => some (toString n)
  | .bool true => some "True"
  | .bool false => some "False"
  | _ => none

/-- One element consumed by `dict(iterable)`: a two-element list with a
hashable first component, a two-character string, or a two-entry dict
(iterating a dict yields its keys); anything else makes `dict(...)`
raise. -/
def pyDictPair : JsonValue → Option (JsonValue × JsonValue)
  | .arr [k, v] => if pyHashable k then some (k, v) else none
  | .str s => if s.length = 2 then some (.str (s.take 1), .str (s.drop 1)) else none
  | .obj [(k1, _), (k2, _)] => some (.str k1, .str k2)
  | _ => none

/-- All elements consumed by `dict(iterable)`, or the raised error. -/
def pyDictPairs : List JsonValue → Option (List (JsonValue × JsonValue))
  | [] => some []
  | e :: rest =>
      match pyDictPair e, pyDictPairs rest with
      | some p, some ps => some (p :: ps)
      | _, _ => none

/-- Python dict insertion: a repeated key overwrites in place (last write
wins, original position kept), a new key is appended. -/
def pyDictInsert (fields : List (String × JsonValue)) (k : String) (v : JsonValue) :
    List (String × JsonValue) :=
  if (pyLookup fields k).isSome then
    fields.map (fun p => if p.1 = k then (k, v) else p)
  else fields ++ [(k, v)]

/-- Key coercion over the pairs of a coerced dict, building the dict with
Python insertion semantics. Raw-key deduplication happens here after the
string coercion; the Python aliasing of `True` with `1` as raw dict keys is
not modelled (no embedded fragment builds such a dict). -/
def pyCoercePairs : List (JsonValue × JsonValue) → List (String × JsonValue) →
    Option (List (String × JsonValue))
  | [], acc => some acc
  | (k, v) :: rest, acc =>
      match pyDictKeyString k with
      | some ks => pyCoercePairs rest (pyDictInsert acc ks v)
      | none => none

/-- Failure modes of a pydantic `Optional[Dict[str, Any]]` field: the value
is not dict-coercible, or a coerced key is not str-coercible. -/
inductive DictFieldError where
  | notADict
  | badKey

/-- pydantic v1 validation of an `Optional[Dict[str, Any]]` field: `None`
passes; a dict passes; an empty string or a pair iterable is coerced with
`dict(...)` (`notADict` when that raises), after which every key is
str-coerced (`badKey` when one is not, e.g. a null key). -/
def pyDictField : Option JsonValue → Except DictFieldError (Option JsonValue)
  | none => .ok none
  | some .null => .ok none
  | some (.obj fields) => .ok (some (.obj fields))
  | some (.arr elems) =>
      match pyDictPairs elems with
      | none => .error .notADict
      | some ps =>
          match pyCoercePairs ps [] with
          | some fields => .ok (some (.obj fields))
          | none => .error .badKey
  | some (.str s) => if s = "" then .ok (some (.obj [])) else .error .notADict
  | some _ => .error .notADict

/-- pydantic v1 error message of a failed `str` field. -/
def strTypeMsg : String := "str type expected (type=type_error.str)"

/-- pydantic v1 error message of a failed `int` field. -/
def intTypeMsg : String := "value is not a valid integer (type=type_error.integer)"

/-- pydantic v1 error message of a failed `dict` field. -/
def dictTypeMsg : String := "value is not a valid dict (type=type_error.dict)"

/-- Error entries contributed by a failed `Dict[str, Any]` field, with the
key-coercion failure reported at the field's `__key__` location. -/
def dictFieldErrors (field : String) : DictFieldError → List (String × String)
  | .notADict => [(field, dictTypeMsg)]
  | .badKey => [(field ++ " -> __key__", strTypeMsg)]

/-- Construction of `ListBlocksParams(start_cursor=..., page_size=...)`:
pydantic validates the two optional fields, collecting one error per failed
field in declaration order, and raises a `ValidationError` when any field
fails; otherwise the model holds the coerced values. -/
def ListBlocksParams_build (start_cursor page_size : Option JsonValue) :
    Except PyError (Option JsonValue × Option JsonValue) :=
  match pyStrField start_cursor, pyIntField page_size with
  | some sc, some ps => .ok (sc, ps)
  | vsc, vps =>
      .error (.validationError "ListBlocksParams"
        ((if vsc.isSome then [] else [("start_cursor", strTypeMsg)]) ++
         (if vps.isSome then [] else [("page_size", intTypeMsg)])))

/-- Construction of `SearchParams(query=..., sort=..., filter=...,
start_cursor=..., page_size=...)`: pydantic validates the five optional
fields, collecting errors in declaration order, and raises a
`ValidationError` when any field fails. -/
def SearchParams_build (query sort filter start_cursor page_size : Option JsonValue) :
    Except PyError
      (Option JsonValue × Option JsonValue × Option JsonValue ×
       Option JsonValue × Option JsonValue) :=
  match pyStrField query, pyDictField sort, pyDictField filter,
        pyStrField start_cursor, pyIntField page_size with
  | some q, .ok so, .ok f, some sc, some ps => .ok (q, so, f, sc, ps)
  | vq, vso, vf, vsc, vps =>
      .error (.validationError "SearchParams"
        ((if vq.isSome then [] else [("query", strTypeMsg)]) ++
         (match vso with | .ok _ => [] | .error e => dictFieldErrors "sort" e) ++
         (match vf with | .ok _ => [] | .error e => dictFieldErrors "filter" e) ++
         (if vsc.isSome then [] else [("start_cursor", strTypeMsg)]) ++
         (if vps.isSome then [] else [("page_size", intTypeMsg)])))

/-- The `params` value of the `list_blocks` arm of `call_tool`: a
`ListBlocksParams` is constructed — and pydantic-validated — only when
`start_cursor` or `page_size` occurs in the argument bag; otherwise `params`
stays `None`. This runs before `arguments["block_id"]` is read. -/
def list_blocks_params_build (arguments : ArgBag) :
    Except PyError (Option (Option JsonValue × Option JsonValue)) :=
  if hasKey arguments "start_cursor" || hasKey arguments "page_size" then
    match ListBlocksParams_build (pyGetOpt arguments "start_cursor")
        (pyGetOpt arguments "page_size") with
    | .error e => .error e
    | .ok ps => .ok (some ps)
  else .ok none

/-- Argument extraction and request construction of each dispatch arm of
`call_tool` in `server.py`, one `elif` per tool name in source order,
composed with the request building done inside the invoked `NotionClient`
method. Each arm reads its required arguments with `arguments[...]`
(`KeyError` when absent) and its optional arguments with `arguments.get`,
then builds the single HTTP request the client method issues; the
`list_blocks` and `search` arms first construct their pydantic parameter
models (`ListBlocksParams` before `block_id` is read), whose validation can
raise; the final `else` branch raises
`ValueError(f"Unknown tool: \x7bname\x7d")`. -/
def build_request (name : String) (arguments : ArgBag) :
    Except PyError (BackendRequest × ResultShape) :=
  if name = "get_page" then
    match getItem arguments "page_id" with
    | .error e => .error e
    | .ok page_id =>
        .ok (⟨"GET", "/v1/pages/" ++ pyStr page_id, [], none⟩, .model "Page")
  else if name = "update_page" then
    match getItem arguments "page_id" with
    | .error e => .error e
    | .ok page_id =>
        match getItem arguments "properties" with
        | .error e => .error e
        | .ok properties =>
            .ok (⟨"PATCH", "/v1/pages/" ++ pyStr page_id, [],
                  some (.obj [("properties", properties)])⟩, .model "Page")
  else if name = "create_page" then
    let children := pyGetOpt arguments "children"
    match getItem arguments "parent" with
    | .error e => .error e
    | .ok parent =>
        match getItem arguments "properties" with
        | .error e => .error e
        | .ok properties =>
            .ok (⟨"POST", "/v1/pages", [],
                  some (.obj ([("parent", parent), ("properties", properties)] ++
                    optField "children" children))⟩, .model "Page")
  else if name = "get_database" then
    match getItem arguments "database_id" with
    | .error e => .error e
    | .ok database_id =>
        .ok (⟨"GET", "/v1/databases/" ++ pyStr database_id, [], none⟩, .model "Database")
  else if name = "query_database" then
    let filter := pyGetOpt arguments "filter"
    let sorts := pyGetOpt arguments "sorts"
    let start_cursor := pyGetOpt arguments "start_cursor"
    let page_size := pyGetOpt arguments "page_size"
    match getItem arguments "database_id" with
    | .error e => .error e
    | .ok database_id =>
        .ok (⟨"POST", "/v1/databases/" ++ pyStr database_id ++ "/query", [],
              some (.obj (query_database_data filter sorts start_cursor page_size))⟩,
             .rawDict)
  else if name = "get_block" then
    match getItem arguments "block_id" with
    | .error e => .error e
    | .ok block_id =>
        .ok (⟨"GET", "/v1/blocks/" ++ pyStr block_id, [], none⟩, .model "Block")
  else if name = "update_block" then
    match getItem arguments "block_id" with
    | .error e => .error e
    | .ok block_id =>
        match getItem arguments "content" with
        | .error e => .error e
        | .ok content =>
            .ok (⟨"PATCH", "/v1/blocks/" ++ pyStr block_id, [], some content⟩, .model "Block")
  else if name = "list_blocks" then
    match list_blocks_params_build arguments with
    | .error e => .error e
    | .ok params =>
        match getItem arguments "block_id" with
        | .error e => .error e
        | .ok block_id =>
            .ok (⟨"GET", "/v1/blocks/" ++ pyStr block_id ++ "/children",
                  (match params with
                   | some (sc, ps) =>
                       noneField "start_cursor" sc ++ noneField "page_size" ps
                   | none => []), none⟩, .rawDict)
  else if name = "append_blocks" then
    match getItem arguments "block_id" with
    | .error e => .error e
    | .ok block_id =>
        match getItem arguments "children" with
        | .error e => .error e
        | .ok children =>
            .ok (⟨"PATCH", "/v1/blocks/" ++ pyStr block_id ++ "/children", [],
                  some (.obj [("children", children)])⟩, .rawDict)
  else if name = "delete_block" then
    match getItem arguments "block_id" with
    | .error e => .error e
    | .ok block_id =>
        .ok (⟨"DELETE", "/v1/blocks/" ++ pyStr block_id, [], none⟩, .model "Block")
  else if name = "search" then
    match SearchParams_build (pyGetOpt arguments "query") (pyGetOpt arguments "sort")
        (pyGetOpt arguments "filter") (pyGetOpt arguments "start_cursor")
        (pyGetOpt arguments "page_size") with
    | .error e => .error e
    | .ok (q, so, f, sc, ps) =>
        .ok (⟨"POST", "/v1/search", [], some (.obj (search_data q so f sc ps))⟩, .rawDict)
  else
    .error (.valueError ("Unknown tool: " ++ name))

/-- Wrapping of the backend response by the selected arm. -/
def wrapResult : ResultShape → JsonValue → ToolResult
  | .rawDict, j => .dictVal j
  | .model m, j => .pydantic m j

/-- The `call_tool` handler of `server.py`: decode and dispatch the named
tool against the backend inside a `try` block whose `except Exception`
branch turns any raised error into an error text response. The second
component is the list of HTTP requests issued during the call (the spy
trace): empty when decoding fails, exactly one when an arm reaches the
backend. -/
def call_tool (backend : Backend) (name : String) (arguments : ArgBag) :
    CallOutcome × List BackendRequest :=
  match build_request name arguments with
  | .error e => (.err (errorText name e), [])
  | .ok (req, shape) =>
      match run_request backend req with
      | .error e => (.err (errorText name e), [req])
      | .ok j => (.ok (wrapResult shape j), [req])

/-- Guard names of the `if/elif` chain of `call_tool`, in source order. -/
def call_tool_guards : List String :=
  ["get_page", "update_page", "create_page", "get_database", "query_database",
   "get_block", "update_block", "list_blocks", "append_blocks", "delete_block",
   "search"]

/-- A tool advertised by `list_tools` in `server.py`: name, description, the
`required` list of its input schema, and its declared properties as pairs of
parameter name and JSON-schema type. -/
structure Tool where
  name : String
  description : String
  required : List String
  properties : List (String × String)
deriving DecidableEq

/-- The static tool table returned by `list_tools` in `server.py`, in
declaration order. -/
def list_tools : List Tool :=
  [⟨"get_page", "Get a Notion page by ID",
    ["page_id"], [("page_id", "string")]⟩,
   ⟨"update_page", "Update a Notion page's properties",
    ["page_id", "properties"], [("page_id", "string"), ("properties", "object")]⟩,
   ⟨"create_page", "Create a new Notion page",
    ["parent", "properties"],
    [("parent", "object"), ("properties", "object"), ("children", "array")]⟩,
   ⟨"get_database", "Get a Notion database by ID",
    ["database_id"], [("database_id", "string")]⟩,
   ⟨"query_database", "Query a Notion database",
    ["database_id"],
    [("database_id", "string"), ("filter", "object"), ("sorts", "array"),
     ("start_cursor", "string"), ("page_size", "integer")]⟩,
   ⟨"get_block", "Get a Notion block by ID",
    ["block_id"], [("block_id", "string")]⟩,
   ⟨"update_block", "Update a Notion block's content",
    ["block_id", "content"], [("block_id", "string"), ("content", "object")]⟩,
   ⟨"list_blocks", "List a Notion block's children",
    ["block_id"],
    [("block_id", "string"), ("start_cursor", "string"), ("page_size", "integer")]⟩,
   ⟨"append_blocks", "Append blocks to a Notion block's children",
    ["block_id", "children"], [("block_id", "string"), ("children", "array")]⟩,
   ⟨"delete_block", "Delete a Notion block",
    ["block_id"], [("block_id", "string")]⟩,
   ⟨"search", "Search for Notion objects",
    [],
    [("query", "string"), ("sort", "object"), ("filter", "object"),
     ("start_cursor", "string"), ("page_size", "integer")]⟩]

/-- Kind of a capability in the MCP protocol (`CapabilityType` in
`mcp/models.py`), a string-valued enum. -/
inductive CapabilityType where
  | query
  | operation
  | contextual_operation
deriving DecidableEq

/-- Serialized value of a `CapabilityType` (the enum's string value). -/
def CapabilityType.value : CapabilityType → String
  | .query => "query"
  | .operation => "operation"
  | .contextual_operation => "contextual_operation"

/-- Validation of a string against the `CapabilityType` enum. -/
def CapabilityType.fromValue (s : String) : Option CapabilityType :=
  if s = "query" then some .query
  else if s = "operation" then some .operation
  else if s = "contextual_operation" then some .contextual_operation
  else none

/-- Category of a Notion operation (`Category` in `mcp/models.py`). -/
inductive Category where
  | page
  | database
  | block
  | search
deriving DecidableEq

/-- Serialized value of a `Category`. -/
def Category.value : Category → String
  | .page => "page"
  | .database => "database"
  | .block => "block"
  | .search => "search"

/-- Validation of a string against the `Category` enum. -/
def Category.fromValue (s : String) : Option Category :=
  if s = "page" then some .page
  else if s = "database" then some .database
  else if s = "block" then some .block
  else if s = "search" then some .search
  else none

/-- Parameter descriptor of a capability (`Parameter` in `mcp/models.py`):
name, description, declared type, required flag defaulting to `False`. -/
structure Parameter where
  name : String
  description : String
  type : String
  required : Bool := false
deriving DecidableEq

/-- Capability descriptor (`Capability` in `mcp/models.py`): name,
description, kind, ordered parameter list, return type defaulting to
`object`, optional category. -/
structure Capability where
  name : String
  description : String
  type : CapabilityType
  parameters : List Parameter := []
  return_type : String := "object"
  category : Option Category := none
deriving DecidableEq

/-- The capability catalogue of `get_notion_capabilities` in
`mcp/handler.py`, all fifteen descriptors in declaration order. -/
def get_notion_capabilities : List Capability :=
  [{ name := "get_page",
     description := "Get a Notion page by ID",
     type := .query,
     parameters := [
       { name := "page_id", description := "The ID of the page to get",
         type := "string", required := true }],
     category := some .page },
   { name := "update_page",
     description := "Update a Notion page's properties",
     type := .operation,
     parameters := [
       { name := "page_id", description := "The ID of the page to update",
         type := "string", required := true },
       { name := "properties", description := "Properties to update",
         type := "object", required := true }],
     category := some .page },
   { name := "create_page",
     description := "Create a new Notion page",
     type := .operation,
     parameters := [
       { name := "parent", description := "Parent object (database_id or page_id)",
         type := "object", required := true },
       { name := "properties", description := "Page properties",
         type := "object", required := true },
       { name := "children", description := "Children blocks",
         type := "array", required := false }],
     category := some .page },
   { name := "get_database",
     description := "Get a Notion database by ID",
     type := .query,
     parameters := [
       { name := "database_id", description := "The ID of the database to get",
         type := "string", required := true }],
     category := some .database },
   { name := "query_database",
     description := "Query a Notion database",
     type := .query,
     parameters := [
       { name := "database_id", description := "The ID of the database to query",
         type := "string", required := true },
       { name := "filter", description := "Filter to apply to the database query",
         type := "object", required := false },
       { name := "sorts", description := "Sort order for the database query",
         type := "array", required := false },
       { name := "start_cursor", description := "Pagination cursor",
         type := "string", required := false },
       { name := "page_size", description := "Number of results to return per page",
         type := "integer", required := false }],
     category := some .database },
   { name := "get_block",
     description := "Get a Notion block by ID",
     type := .query,
     parameters := [
       { name := "block_id", description := "The ID of the block to get",
         type := "string", required := true }],
     category := some .block },
   { name := "update_block",
     description := "Update a Notion block's content",
     type := .operation,
     parameters := [
       { name := "block_id", description := "The ID of the block to update",
         type := "string", required := true },
       { name := "content", description := "Content to update",
         type := "object", required := true }],
     category := some .block },
   { name := "list_blocks",
     description := "List a Notion block's children",
     type := .query,
     parameters := [
       { name := "block_id", description := "The ID of the block to list children for",
         type := "string", required := true },
       { name := "start_cursor", description := "Pagination cursor",
         type := "string", required := false },
       { name := "page_size", description := "Number of results to return per page",
         type := "integer", required := false }],
     category := some .block },
   { name := "append_blocks",
     description := "Append blocks to a Notion block's children",
     type := .operation,
     parameters := [
       { name := "block_id", description := "The ID of the block to append children to",
         type := "string", required := true },
       { name := "children", description := "Children blocks to append",
         type := "array", required := true }],
     category := some .block },
   { name := "delete_block",
     description := "Delete a Notion block",
     type := .operation,
     parameters := [
       { name := "block_id", description := "The ID of the block to delete",
         type := "string", required := true }],
     category := some .block },
   { name := "search",
     description := "Search for Notion objects",
     type := .query,
     parameters := [
       { name := "query", description := "Search query",
         type := "string", required := false },
       { name := "sort", description := "Sort order for search results",
         type := "object", required := false },
       { name := "filter", description := "Filter to apply to search results",
         type := "object", required := false },
       { name := "start_cursor", description := "Pagination cursor",
         type := "string", required := false },
       { name := "page_size", description := "Number of results to return per page",
         type := "integer", required := false }],
     category := some .search },
   { name := "create_database",
     description := "Create a new Notion database",
     type := .operation,
     parameters := [
       { name := "parent", description := "Parent object (page_id)",
         type := "object", required := true },
       { name := "title", description := "Title of the database",
         type := "array", required := true },
       { name := "properties", description := "Database properties schema",
         type := "object", required := true },
       { name := "icon", description := "Icon object",
         type := "object", required := false },
       { name := "cover", description := "Cover object",
         type := "object", required := false },
       { name := "is_inline", description := "Whether the database is inline",
         type := "boolean", required := false }],
     category := some .database },
   { name := "update_database",
     description := "Update a Notion database",
     type := .operation,
     parameters := [
       { name := "database_id", description := "The ID of the database to update",
         type := "string", required := true },
       { name := "title", description := "Title of the database",
         type := "array", required := false },
       { name := "properties", description := "Database properties schema",
         type := "object", required := false },
       { name := "icon", description := "Icon object",
         type := "object", required := false },
       { name := "cover", description := "Cover object",
         type := "object", required := false },
       { name := "is_inline", description := "Whether the database is inline",
         type := "boolean", required := false }],
     category := some .database },
   { name := "create_comment",
     description := "Create a Notion comment",
     type := .operation,
     parameters := [
       { name := "parent", description := "Parent object (page_id or block_id)",
         type := "object", required := true },
       { name := "rich_text", description := "Rich text content of the comment",
         type := "array", required := true },
       { name := "discussion_id", description := "ID of the discussion thread",
         type := "string", required := false }],
     category := some .block },
   { name := "get_comment",
     description := "Retrieve a Notion comment",
     type := .query,
     parameters := [
       { name := "comment_id", description := "The ID of the comment to get",
         type := "string", required := true }],
     category := some .block }]

/-- Names of the catalogued capabilities, in declaration order. -/
def capability_names : List String :=
  get_notion_capabilities.map Capability.name

/-- The backend-client methods of `NotionClient` in `api/client.py`, one per
supported remote operation. -/
inductive ClientMethod where
  | get_page
  | update_page
  | create_page
  | get_database
  | query_database
  | get_block
  | update_block
  | list_blocks
  | append_blocks
  | delete_block
  | search
  | create_database
  | update_database
  | create_comment
  | get_comment
deriving DecidableEq

/-- Source name of each `NotionClient` method. -/
def ClientMethod.srcName : ClientMethod → String
  | .get_page => "get_page"
  | .update_page => "update_page"
  | .create_page => "create_page"
  | .get_database => "get_database"
  | .query_database => "query_database"
  | .get_block => "get_block"
  | .update_block => "update_block"
  | .list_blocks => "list_blocks"
  | .append_blocks => "append_blocks"
  | .delete_block => "delete_block"
  | .search => "search"
  | .create_database => "create_database"
  | .update_database => "update_database"
  | .create_comment => "create_comment"
  | .get_comment => "get_comment"

/-- The `if/elif` chain of `NotionMCPHandler.handle_query`: which
`NotionClient` method the matched arm invokes, `none` for the final `else`
branch that raises `ValueError(f"Unknown query capability: ...")`. -/
def handle_query_arm (capability_name : String) : Option ClientMethod :=
  if capability_name = "get_page" then some .get_page
  else if capability_name = "get_database" then some .get_database
  else if capability_name = "query_database" then some .query_database
  else if capability_name = "get_block" then some .get_block
  else if capability_name = "list_blocks" then some .list_blocks
  else if capability_name = "search" then some .search
  else if capability_name = "get_comment" then some .get_comment
  else none

/-- The `if/elif` chain of `NotionMCPHandler.handle_operation`: which
`NotionClient` method the matched arm invokes, `none` for the final `else`
branch that raises `ValueError(f"Unknown operation capability: ...")`. -/
def handle_operation_arm (capability_name : String) : Option ClientMethod :=
  if capability_name = "create_page" then some .create_page
  else if capability_name = "update_page" then some .update_page
  else if capability_name = "update_block" then some .update_block
  else if capability_name = "append_blocks" then some .append_blocks
  else if capability_name = "delete_block" then some .delete_block
  else if capability_name = "create_database" then some .create_database
  else if capability_name = "update_database" then some .update_database
  else if capability_name = "create_comment" then some .create_comment
  else none

/-- Guard names of the `handle_query` chain, in source order. -/
def handle_query_guards : List String :=
  ["get_page", "get_database", "query_database", "get_block", "list_blocks",
   "search", "get_comment"]

/-- Guard names of the `handle_operation` chain, in source order. -/
def handle_operation_guards : List String :=
  ["create_page", "update_page", "update_block", "append_blocks", "delete_block",
   "create_database", "update_database", "create_comment"]

/-- Dispatch of `NotionMCPHandler` by capability kind: queries go to
`handle_query`, operations to `handle_operation`; the contextual-operation
kind has no registered arm. -/
def handler_dispatch_arm (t : CapabilityType) (capability_name : String) :
    Option ClientMethod :=
  match t with
  | .query => handle_query_arm capability_name
  | .operation => handle_operation_arm capability_name
  | .contextual_operation => none

/-- `NotionMCPHandler.handle_contextual_operation`: unconditionally raises
`ValueError(f"Unknown contextual operation capability: ...")`, invoking no
backend-client method (the empty request trace). -/
def handle_contextual_operation (capability_name : String) (params : ArgBag) :
    Except PyError JsonValue × List BackendRequest :=
  (.error (.valueError ("Unknown contextual operation capability: " ++ capability_name)),
   [])

/-- Schema form of a parameter descriptor: the dict pydantic `.dict()`
produces for a `Parameter`, fields in declaration order, exported for
client-side discovery through `get_data_source_config`. -/
def Parameter.toDict (p : Parameter) : JsonValue :=
  .obj [("name", .str p.name), ("description", .str p.description),
        ("type", .str p.type), ("required", .bool p.required)]

/-- Decoding of a parameter descriptor from its schema form, following the
`Parameter` model's validation: `name`, `description` and `type` are
required strings, `required` is an optional boolean defaulting to
`False`. -/
def Parameter.fromDict (j : JsonValue) : Option Parameter :=
  match j with
  | .obj fields =>
      match pyLookup fields "name", pyLookup fields "description",
            pyLookup fields "type" with
      | some (.str n), some (.str d), some (.str t) =>
          match pyLookup fields "required" with
          | some (.bool b) => some { name := n, description := d, type := t, required := b }
          | none => some { name := n, description := d, type := t }
          | some _ => none
      | _, _, _ => none
  | _ => none

/-- Decoding of a parameter list from its schema form. -/
def parseParameters : List JsonValue → Option (List Parameter)
  | [] => some []
  | j :: rest =>
      match Parameter.fromDict j, parseParameters rest with
      | some p, some ps => some (p :: ps)
      | _, _ => none

/-- Schema form of a capability descriptor: the dict pydantic `.dict()`
produces for a `Capability`, fields in declaration order, enum fields
rendered as their string values and an absent category as `null`. -/
def Capability.toDict (c : Capability) : JsonValue :=
  .obj [("name", .str c.name), ("description", .str c.description),
        ("type", .str c.type.value),
        ("parameters", .arr (c.parameters.map Parameter.toDict)),
        ("return_type", .str c.return_type),
        ("category", match c.category with
                     | some cat => .str cat.value
                     | none => .null)]

/-- Decoding of a capability descriptor from its schema form, following the
`Capability` model's validation: `name` and `description` are required
strings, `type` a required `CapabilityType` value, `parameters` an optional
list of parameter dicts defaulting to empty, `return_type` an optional
string defaulting to `object`, `category` an optional `Category` value
defaulting to `None`. -/
def Capability.fromDict (j : JsonValue) : Option Capability :=
  match j with
  | .obj fields =>
      match pyLookup fields "name", pyLookup fields "description" with
      | some (.str n), some (.str d) =>
          match pyLookup fields "type" with
          | some (.str tv) =>
              match CapabilityType.fromValue tv with
              | some t =>
                  let ps : Option (List Parameter) :=
                    match pyLookup fields "parameters" with
                    | some (.arr xs) => parseParameters xs
                    | none => some []
                    | some _ => none
                  let rt : Option String :=
                    match pyLookup fields "return_type" with
                    | some (.str s) => some s
                    | none => some "object"
                    | some _ => none
                  let cat : Option (Option Category) :=
                    match pyLookup fields "category" with
                    | some (.str s) => (Category.fromValue s).map some
                    | some .null => some none
                    | none => some none
                    | some _ => none
                  match ps, rt, cat with
                  | some ps, some rt, some cat =>
                      some { name := n, description := d, type := t, parameters := ps,
                             return_type := rt, category := cat }
                  | _, _, _ => none
              | none => none
          | _ => none
      | _, _ => none
  | _ => none

/-- Lookup in a concatenated dict literal: the left part wins when it binds
the key. -/
theorem pyLookup_append (xs ys : List (String × JsonValue)) (k : String) :
    pyLookup (xs ++ ys) k =
      (match pyLookup xs k with
       | some v => some v
       | none => pyLookup ys k) := by
  induction xs with
  | nil => simp [pyLookup]
  | cons p rest ih =>
      rcases p with ⟨k1, v1⟩
      by_cases hk : k1 = k
      · simp [pyLookup, hk]
      · simp [pyLookup, hk, ih]

/-- Forwarding discipline the amended claim C3 ascribes to the
truthiness-guarded optional fields: a supplied value is kept only when it is
truthy; a falsy supplied value is dropped exactly as if absent. -/
def optKeep (v : Option JsonValue) : Option JsonValue :=
  match v with
  | some x => if pyTruthy x then some x else none
  | none => none

/-- A truthiness-guarded field binds its own key to `optKeep` of the
supplied value. -/
theorem pyLookup_optField_self (k : String) (v : Option JsonValue) :
    pyLookup (optField k v) k = optKeep v := by
  rcases v with _ | x
  · simp [optField, optKeep, pyLookup]
  · by_cases ht : pyTruthy x <;> simp [optField, optKeep, pyLookup, ht]

/-- A truthiness-guarded field binds no other key. -/
theorem pyLookup_optField_ne (k key : String) (v : Option JsonValue)
    (h : k ≠ key) : pyLookup (optField k v) key = none := by
  rcases v with _ | x
  · simp [optField, pyLookup]
  · by_cases ht : pyTruthy x <;> simp [optField, pyLookup, ht, h]

/-- A none-excluding field binds its own key to exactly the supplied
value. -/
theorem pyLookup_noneField_self (k : String) (v : Option JsonValue) :
    pyLookup (noneField k v) k = v := by
  rcases v with _ | x <;> simp [noneField, pyLookup]

/-- A none-excluding field binds no other key. -/
theorem pyLookup_noneField_ne (k key : String) (v : Option JsonValue)
    (h : k ≠ key) : pyLookup (noneField k v) key = none := by
  rcases v with _ | x <;> simp [noneField, pyLookup, h]

/-- C1: dispatch is total over the catalogue — every one of the fifteen
capability names returned by `get_notion_capabilities` matches exactly one
arm across the `handle_query` and `handle_operation` chains of the handler,
and dispatching the capability by its kind reaches an arm invoking the
`NotionClient` method of the same name, never the unknown-capability
`else` branch. -/
theorem capability_dispatch_total :
    get_notion_capabilities.all (fun c =>
      ((handle_query_guards ++ handle_operation_guards).count c.name == 1) &&
      (match handler_dispatch_arm c.type c.name with
       | some m => m.srcName == c.name
       | none => false)) = true := by decide

/-- C8: encoding any catalogued capability descriptor to its schema dict and
decoding that dict back yields the identical descriptor — in particular the
name, every parameter's required flag and every declared parameter type are
preserved. -/
theorem capability_schema_roundtrip :
    get_notion_capabilities.all (fun c =>
      Capability.fromDict (Capability.toDict c) == some c) = true := by decide

/-- C9: the catalogue's capability names are pairwise distinct and form the
fixed declaration-order sequence; the catalogue is a pure constant of the
embedding, so every call returns this same ordered sequence of
descriptors. -/
theorem capability_names_distinct_and_stable :
    capability_names = ["get_page", "update_page", "create_page", "get_database",
      "query_database", "get_block", "update_block", "list_blocks", "append_blocks",
      "delete_block", "search", "create_database", "update_database", "create_comment",
      "get_comment"] ∧ capability_names.Nodup := by
  refine ⟨rfl, ?_⟩
  decide

/-- C6: dispatching a capability of the contextual-operation kind always
fails — `handle_contextual_operation` raises its unknown-capability
`ValueError` for every name and argument bag, issues no backend request, and
no capability of that kind has a registered arm. -/
theorem contextual_operation_unsupported :
    ∀ (capability_name : String) (params : ArgBag),
      handle_contextual_operation capability_name params =
        (.error (.valueError
          ("Unknown contextual operation capability: " ++ capability_name)), []) ∧
      handler_dispatch_arm .contextual_operation capability_name = none :=
  fun _ _ => ⟨rfl, rfl⟩

/-- C7: `call_tool` on `query_database` with `database_id = "d1"` and
`page_size = 5` issues exactly one backend request whose body carries
`page_size = 5` unchanged, and returns the backend's pagination envelope
(`results`, `next_cursor`, `has_more`) untouched as the raw result dict. -/
theorem query_database_pagesize_passthrough :
    ∀ (results next_cursor has_more : JsonValue),
      call_tool
        (fun _ => ⟨200, some (.obj [("results", results), ("next_cursor", next_cursor),
                                    ("has_more", has_more)]), ""⟩)
        "query_database"
        [("database_id", .str "d1"), ("page_size", .num 5)] =
      (.ok (.dictVal (.obj [("results", results), ("next_cursor", next_cursor),
                            ("has_more", has_more)])),
       [⟨"POST", "/v1/databases/d1/query", [], some (.obj [("page_size", .num 5)])⟩]) :=
  fun _ _ _ => rfl

/-- C3 refutation: `query_database` invoked with supplied `page_size = 0`,
an empty `filter` object and an empty `start_cursor` string issues a backend
request whose body is the empty object — the supplied falsy values are
silently dropped as if absent, contradicting the claim that they must still
be included. -/
theorem query_database_sentinel_counterexample :
    call_tool (fun _ => ⟨200, some (.obj []), ""⟩) "query_database"
      [("database_id", .str "d1"), ("filter", .obj []), ("start_cursor", .str ""),
       ("page_size", .num 0)] =
    (.ok (.dictVal (.obj [])),
     [⟨"POST", "/v1/databases/d1/query", [], some (.obj [])⟩]) := rfl

/-- A name matching no guard of the `call_tool` chain reaches the final
`else` branch: the raised `Unknown tool` error is caught and wrapped, and no
backend request is issued. -/
theorem call_tool_unknown_name (name : String) (h : name ∉ call_tool_guards)
    (backend : Backend) (args : ArgBag) :
    call_tool backend name args =
      (.err (errorText name (.valueError ("Unknown tool: " ++ name))), []) := by
  simp only [call_tool_guards, List.mem_cons, List.not_mem_nil, or_false, not_or] at h
  obtain ⟨h1, h2, h3, h4, h5, h6, h7, h8, h9, h10, h11⟩ := h
  simp [call_tool, build_request, h1, h2, h3, h4, h5, h6, h7, h8, h9, h10, h11]

/-- A name matching no guard of the `handle_query` chain reaches its
unknown-capability `else` branch. -/
theorem handle_query_arm_unknown (name : String) (h : name ∉ handle_query_guards) :
    handle_query_arm name = none := by
  simp only [handle_query_guards, List.mem_cons, List.not_mem_nil, or_false, not_or] at h
  obtain ⟨h1, h2, h3, h4, h5, h6, h7⟩ := h
  simp [handle_query_arm, h1, h2, h3, h4, h5, h6, h7]

/-- A name matching no guard of the `handle_operation` chain reaches its
unknown-capability `else` branch. -/
theorem handle_operation_arm_unknown (name : String) (h : name ∉ handle_operation_guards) :
    handle_operation_arm name = none := by
  simp only [handle_operation_guards, List.mem_cons, List.not_mem_nil, or_false, not_or] at h
  obtain ⟨h1, h2, h3, h4, h5, h6, h7, h8⟩ := h
  simp [handle_operation_arm, h1, h2, h3, h4, h5, h6, h7, h8]

/-- Every guard of the `call_tool` chain names a catalogued capability. -/
theorem call_tool_guards_subset :
    ∀ x ∈ call_tool_guards, x ∈ capability_names := by decide

/-- Every guard of the handler chains names a catalogued capability. -/
theorem handler_guards_subset :
    ∀ x ∈ handle_query_guards ++ handle_operation_guards, x ∈ capability_names := by
  decide

/-- C4: invoking dispatch with a capability name outside the catalogue
yields the unknown-capability error with zero backend invocations — the spy
trace of `call_tool` is empty — and neither handler chain has an arm for the
name either. -/
theorem unknown_capability_no_backend_call (name : String)
    (h : name ∉ capability_names) :
    (∀ (backend : Backend) (args : ArgBag),
      call_tool backend name args =
        (.err (errorText name (.valueError ("Unknown tool: " ++ name))), [])) ∧
    (∀ t : CapabilityType, handler_dispatch_arm t name = none) := by
  constructor
  · intro backend args
    exact call_tool_unknown_name name
      (fun hmem => h (call_tool_guards_subset name hmem)) backend args
  · intro t
    cases t with
    | query =>
        exact handle_query_arm_unknown name
          (fun hmem => h (handler_guards_subset name (List.mem_append_left _ hmem)))
    | operation =>
        exact handle_operation_arm_unknown name
          (fun hmem => h (handler_guards_subset name (List.mem_append_right _ hmem)))
    | contextual_operation => rfl

/-- Witness for C4 at the concrete name `do_magic`: not catalogued, so the
call returns the unknown-tool error and the spy backend records zero
invocations. -/
theorem unknown_capability_no_backend_call_witness :
    call_tool (fun _ => ⟨200, some (.obj []), ""⟩) "do_magic" [] =
      (.err (errorText "do_magic" (.valueError ("Unknown tool: do_magic"))), []) :=
  (unknown_capability_no_backend_call "do_magic" (by decide)).1
    (fun _ => ⟨200, some (.obj []), ""⟩) []

/-- C10: the two static tables of the server transport agree — the tool
names advertised by `list_tools` are exactly the guard names of the
`call_tool` chain in the same order, each advertised name matches exactly
one arm, and every name outside those eleven (including the catalogued
`create_database`, `update_database`, `create_comment` and `get_comment`)
takes the unknown-tool branch with no backend request. -/
theorem server_tool_tables_agree :
    list_tools.map Tool.name = call_tool_guards ∧
    (list_tools.all (fun t => call_tool_guards.count t.name == 1) = true) ∧
    (∀ name, name ∉ call_tool_guards → ∀ (backend : Backend) (args : ArgBag),
      call_tool backend name args =
        (.err (errorText name (.valueError ("Unknown tool: " ++ name))), [])) := by
  refine ⟨rfl, by decide, ?_⟩
  intro name h backend args
  exact call_tool_unknown_name name h backend args

/-- Witness for C10 at the catalogued name `create_database`: it is not a
server tool, so `call_tool` answers with the unknown-tool error and issues
no request. -/
theorem server_tool_tables_agree_witness :
    call_tool (fun _ => ⟨200, some (.obj []), ""⟩) "create_database" [] =
      (.err (errorText "create_database"
        (.valueError ("Unknown tool: create_database"))), []) :=
  server_tool_tables_agree.2.2 "create_database" (by decide)
    (fun _ => ⟨200, some (.obj []), ""⟩) []

/-- C3 (amended): the truthiness-guarded optional fields of
`query_database` forward a supplied truthy value verbatim and leave an
omitted field absent, but drop a supplied falsy value (`0`, empty object,
empty array, empty string) from the backend request body exactly as if it
were absent; the `exclude_none` fields of `search` forward every supplied
non-null value verbatim and leave omitted or null fields absent. -/
theorem optional_param_forwarding :
    (∀ (filter sorts start_cursor page_size : Option JsonValue),
      pyLookup (query_database_data filter sorts start_cursor page_size) "filter" =
        optKeep filter ∧
      pyLookup (query_database_data filter sorts start_cursor page_size) "sorts" =
        optKeep sorts ∧
      pyLookup (query_database_data filter sorts start_cursor page_size) "start_cursor" =
        optKeep start_cursor ∧
      pyLookup (query_database_data filter sorts start_cursor page_size) "page_size" =
        optKeep page_size) ∧
    (∀ (query sort filter start_cursor page_size : Option JsonValue),
      pyLookup (search_data query sort filter start_cursor page_size) "query" = query ∧
      pyLookup (search_data query sort filter start_cursor page_size) "sort" = sort ∧
      pyLookup (search_data query sort filter start_cursor page_size) "filter" = filter ∧
      pyLookup (search_data query sort filter start_cursor page_size) "start_cursor" =
        start_cursor ∧
      pyLookup (search_data query sort filter start_cursor page_size) "page_size" =
        page_size) := by
  constructor
  · intro f so sc ps
    rcases f with _ | fv <;> rcases so with _ | sov <;>
      rcases sc with _ | scv <;> rcases ps with _ | psv <;>
      refine ⟨?_, ?_, ?_, ?_⟩ <;>
      simp only [query_database_data, optField, optKeep] <;>
      (try split_ifs) <;>
      simp [pyLookup]
  · intro q so f sc ps
    rcases q with _ | qv <;> rcases so with _ | sov <;> rcases f with _ | fv <;>
      rcases sc with _ | scv <;> rcases ps with _ | psv <;>
      refine ⟨?_, ?_, ?_, ?_, ?_⟩ <;>
      simp [search_data, noneField, pyLookup]

/-- C2: a capability call issues at most one backend request — a failed call
is never retried — and when the backend answers `create_page` with any
non-success status `s` and JSON error body carrying message `m`, the
dispatcher returns the structured error text wrapping `NotionAPIError s m`
(status and message verbatim) after exactly one request; the `except` branch
of `call_tool` makes every outcome a returned response, so no exception
escapes the boundary. -/
theorem backend_error_passthrough :
    (∀ (backend : Backend) (name : String) (args : ArgBag),
      (call_tool backend name args).2.length ≤ 1) ∧
    (∀ (s : Int) (m : String), 400 ≤ s → ∀ (name : String) (args : ArgBag),
      (call_tool (fun _ => ⟨s, some (.obj [("message", .str m)]), ""⟩) name args).2 = [] ∨
      (call_tool (fun _ => ⟨s, some (.obj [("message", .str m)]), ""⟩) name args).1 =
        .err (errorText name (.notionAPIError s m))) ∧
    (∀ (s : Int) (m : String), 400 ≤ s →
      call_tool (fun _ => ⟨s, some (.obj [("message", .str m)]), ""⟩) "create_page"
        [("parent", .obj [("page_id", .str "p1")]),
         ("properties", .obj [("title", .arr [])])] =
      (.err (errorText "create_page" (.notionAPIError s m)),
       [⟨"POST", "/v1/pages", [],
         some (.obj [("parent", .obj [("page_id", .str "p1")]),
                     ("properties", .obj [("title", .arr [])])])⟩])) := by
  refine ⟨?_, ?_, ?_⟩
  · intro backend name args
    rcases h : build_request name args with e | rs
    · simp [call_tool, h]
    · rcases rs with ⟨req, shape⟩
      rcases h2 : run_request backend req with e2 | j <;>
        simp [call_tool, h, h2]
  · intro s m hs name args
    rcases h : build_request name args with e | rs
    · left
      simp [call_tool, h]
    · right
      rcases rs with ⟨req, shape⟩
      have hlt : ¬ (s < 400) := by omega
      simp [call_tool, h, run_request, hlt, pyLookup]
  · intro s m hs
    have hlt : ¬ (s < 400) := by omega
    simp [call_tool, build_request, run_request, getItem, pyLookup, pyGetOpt,
      optField, hlt]

/-- Witness for C2 at status 400 and message `invalid properties`: the
`create_page` call returns exactly that status and message wrapped in the
error response, with exactly one backend request issued. -/
theorem backend_error_passthrough_witness :
    call_tool (fun _ => ⟨400, some (.obj [("message", .str "invalid properties")]), ""⟩)
      "create_page"
      [("parent", .obj [("page_id", .str "p1")]),
       ("properties", .obj [("title", .arr [])])] =
    (.err (errorText "create_page" (.notionAPIError 400 "invalid properties")),
     [⟨"POST", "/v1/pages", [],
       some (.obj [("parent", .obj [("page_id", .str "p1")]),
                   ("properties", .obj [("title", .arr [])])])⟩]) :=
  backend_error_passthrough.2.2 400 "invalid properties" (by decide)

/-- A key that fails the membership test is absent from the dict. -/
theorem pyLookup_none_of_hasKey_false (args : ArgBag) (k : String)
    (h : hasKey args k = false) : pyLookup args k = none := by
  unfold hasKey at h
  cases hl : pyLookup args k
  · rfl
  · rw [hl] at h
    simp at h

/-- An error raised out of `ListBlocksParams(...)` is always its pydantic
`ValidationError`. -/
theorem ListBlocksParams_build_error_shape (start_cursor page_size : Option JsonValue)
    (e : PyError) (h : ListBlocksParams_build start_cursor page_size = .error e) :
    ∃ errs, e = .validationError "ListBlocksParams" errs := by
  unfold ListBlocksParams_build at h
  split at h
  · simp at h
  · obtain rfl := Except.error.inj h
    exact ⟨_, rfl⟩

/-- An error raised while building the `params` of the `list_blocks` arm is
always the `ListBlocksParams` `ValidationError`. -/
theorem list_blocks_params_build_error_shape (arguments : ArgBag) (e : PyError)
    (h : list_blocks_params_build arguments = .error e) :
    ∃ errs, e = .validationError "ListBlocksParams" errs := by
  unfold list_blocks_params_build at h
  split at h
  · split at h
    · rename_i e1 heq
      obtain rfl := Except.error.inj h
      exact ListBlocksParams_build_error_shape _ _ _ heq
    · simp at h
  · simp at h

/-- C5 refutation: `list_blocks` called with the bag `\x7b"start_cursor":
[]\x7d` — which lacks the required `block_id` — fails with the pydantic
`ValidationError` of `ListBlocksParams` (constructed before `block_id` is
read), not with a missing-parameter `KeyError` as the claim asserts for
every such bag; the spy trace is still empty. -/
theorem missing_required_param_counterexample :
    call_tool (fun _ => ⟨200, some (.obj []), ""⟩) "list_blocks"
      [("start_cursor", .arr [])] =
      (.err (errorText "list_blocks"
        (.validationError "ListBlocksParams" [("start_cursor", strTypeMsg)])), []) ∧
    build_request "list_blocks" [("start_cursor", .arr [])] =
      .error (.validationError "ListBlocksParams" [("start_cursor", strTypeMsg)]) ∧
    ∀ q : String,
      build_request "list_blocks" [("start_cursor", .arr [])] ≠
        .error (.keyError q) := by
  refine ⟨rfl, rfl, fun q h => ?_⟩
  rw [show build_request "list_blocks" [("start_cursor", .arr [])] =
      .error (.validationError "ListBlocksParams" [("start_cursor", strTypeMsg)])
    from rfl] at h
  simp at h

/-- C5 (amended): for every advertised tool, an argument bag lacking any
parameter the tool's schema marks required makes `call_tool` fail before any
backend request — the spy trace is empty, so no side effect occurs and
nothing partially constructed is dispatched — with either the missing-key
error of some absent required parameter, or, when a supplied optional
parameter fails its pydantic type validation first (`list_blocks` constructs
`ListBlocksParams` before reading `block_id`), that `ValidationError`. -/
theorem missing_required_param_rejected :
    ∀ t ∈ list_tools, ∀ (backend : Backend) (args : ArgBag) (p : String),
      p ∈ t.required → hasKey args p = false →
      (∃ q ∈ t.required, hasKey args q = false ∧
        call_tool backend t.name args =
          (.err (errorText t.name (.keyError q)), [])) ∨
      (∃ model errs, call_tool backend t.name args =
          (.err (errorText t.name (.validationError model errs)), [])) := by
  intro t ht backend args p hp hmiss
  have hnone := pyLookup_none_of_hasKey_false args p hmiss
  fin_cases ht
  · -- get_page
    simp only [List.mem_singleton] at hp
    subst hp
    exact .inl ⟨"page_id", by simp, hmiss,
      by simp [call_tool, build_request, getItem, hnone]⟩
  · -- update_page
    simp only [List.mem_cons, List.not_mem_nil, or_false] at hp
    rcases hp with rfl | rfl
    · exact .inl ⟨"page_id", by simp, hmiss,
        by simp [call_tool, build_request, getItem, hnone]⟩
    · cases h1 : pyLookup args "page_id" with
      | none =>
          exact .inl ⟨"page_id", by simp, by simp [hasKey, h1],
            by simp [call_tool, build_request, getItem, h1]⟩
      | some v =>
          exact .inl ⟨"properties", by simp, hmiss,
            by simp [call_tool, build_request, getItem, h1, hnone]⟩
  · -- create_page
    simp only [List.mem_cons, List.not_mem_nil, or_false] at hp
    rcases hp with rfl | rfl
    · exact .inl ⟨"parent", by simp, hmiss,
        by simp [call_tool, build_request, getItem, hnone]⟩
    · cases h1 : pyLookup args "parent" with
      | none =>
          exact .inl ⟨"parent", by simp, by simp [hasKey, h1],
            by simp [call_tool, build_request, getItem, h1]⟩
      | some v =>
          exact .inl ⟨"properties", by simp, hmiss,
            by simp [call_tool, build_request, getItem, h1, hnone]⟩
  · -- get_database
    simp only [List.mem_singleton] at hp
    subst hp
    exact .inl ⟨"database_id", by simp, hmiss,
      by simp [call_tool, build_request, getItem, hnone]⟩
  · -- query_database
    simp only [List.mem_singleton] at hp
    subst hp
    exact .inl ⟨"database_id", by simp, hmiss,
      by simp [call_tool, build_request, getItem, hnone]⟩
  · -- get_block
    simp only [List.mem_singleton] at hp
    subst hp
    exact .inl ⟨"block_id", by simp, hmiss,
      by simp [call_tool, build_request, getItem, hnone]⟩
  · -- update_block
    simp only [List.mem_cons, List.not_mem_nil, or_false] at hp
    rcases hp with rfl | rfl
    · exact .inl ⟨"block_id", by simp, hmiss,
        by simp [call_tool, build_request, getItem, hnone]⟩
    · cases h1 : pyLookup args "block_id" with
      | none =>
          exact .inl ⟨"block_id", by simp, by simp [hasKey, h1],
            by simp [call_tool, build_request, getItem, h1]⟩
      | some v =>
          exact .inl ⟨"content", by simp, hmiss,
            by simp [call_tool, build_request, getItem, h1, hnone]⟩
  · -- list_blocks: ListBlocksParams is validated before block_id is read
    simp only [List.mem_singleton] at hp
    subst hp
    rcases hv : list_blocks_params_build args with e | params
    · obtain ⟨errs, rfl⟩ := list_blocks_params_build_error_shape args e hv
      exact .inr ⟨"ListBlocksParams", errs, by simp [call_tool, build_request, hv]⟩
    · exact .inl ⟨"block_id", by simp, hmiss,
        by simp [call_tool, build_request, getItem, hv, hnone]⟩
  · -- append_blocks
    simp only [List.mem_cons, List.not_mem_nil, or_false] at hp
    rcases hp with rfl | rfl
    · exact .inl ⟨"block_id", by simp, hmiss,
        by simp [call_tool, build_request, getItem, hnone]⟩
    · cases h1 : pyLookup args "block_id" with
      | none =>
          exact .inl ⟨"block_id", by simp, by simp [hasKey, h1],
            by simp [call_tool, build_request, getItem, h1]⟩
      | some v =>
          exact .inl ⟨"children", by simp, hmiss,
            by simp [call_tool, build_request, getItem, h1, hnone]⟩
  · -- delete_block
    simp only [List.mem_singleton] at hp
    subst hp
    exact .inl ⟨"block_id", by simp, hmiss,
      by simp [call_tool, build_request, getItem, hnone]⟩
  · -- search: no required parameter, hypothesis is vacuous
    simp at hp

/-- Witness for C5: calling `get_page` with an empty argument bag fails with
the missing `page_id` key error and the spy backend records zero
invocations. -/
theorem missing_required_param_rejected_witness :
    (∃ q ∈ ["page_id"], hasKey [] q = false ∧
      call_tool (fun _ => ⟨200, some (.obj []), ""⟩) "get_page" [] =
        (.err (errorText "get_page" (.keyError q)), [])) ∨
    (∃ model errs,
      call_tool (fun _ => ⟨200, some (.obj []), ""⟩) "get_page" [] =
        (.err (errorText "get_page" (.validationError model errs)), [])) :=
  missing_required_param_rejected
    ⟨"get_page", "Get a Notion page by ID", ["page_id"], [("page_id", "string")]⟩
    (by decide) (fun _ => ⟨200, some (.obj []), ""⟩) [] "page_id" (by decide) rfl
